import Mathlib

/-!
# IoT clock (ESP32 + TM1637): a shallow embedding of `main/main.c`

The file embeds the two functions of `main/main.c` that carry behaviour,
`obtain_time` and `lcd_tm1637_task`, as pure functions over an explicit
world (system clock, `TZ` variable) that also produce the list of calls they
make on the platform, in program order.

* C `int` / `long` are 32 bit in twos-complement form, `int64_t` / `time_t` are
  64 bit; arithmetic on them is written with `int32` / `int64` around the
  mathematical result.
* What the SDK decides (tick period, `localtime_r`, return codes, what the
  SNTP service does to the clock) is a field of `Platform`.
* The body of `while (true)` is `loop_pass`; `run_passes n` is the trace of
  the first `n` passes.
-/

namespace IoTClock

/-! ## Machine integers -/

/-- Reading of an integer as a signed machine integer of `w` bits
(wrap-around). -/
def wrapInt (w : Nat) (x : Int) : Int :=
  (x + 2 ^ (w - 1)) % 2 ^ w - 2 ^ (w - 1)

/-- A C `int` / `long` of the target (32 bit). -/
def int32 (x : Int) : Int := wrapInt 32 x

/-- A C `int64_t` / `time_t` of the target (64 bit). -/
def int64 (x : Int) : Int := wrapInt 64 x

/-! ## Data -/

/-- The C `struct tm`. -/
structure tm where
  tm_sec : Int
  tm_min : Int
  tm_hour : Int
  tm_mday : Int
  tm_mon : Int
  tm_year : Int
  tm_wday : Int
  tm_yday : Int
  tm_isdst : Int
deriving DecidableEq

/-- The C `struct timeval`. -/
structure timeval where
  tv_sec : Int
  tv_usec : Int
deriving DecidableEq

/-- The type `esp_err_t` is a C `int`. -/
abbrev esp_err_t := Int

def ESP_OK : esp_err_t := 0

def ESP_ERR_TIMEOUT : esp_err_t := 0x107

/-- Build-time configuration (`sdkconfig.h`, lwIP options) read by the
preprocessor conditionals of `main.c`. -/
structure Config where
  CONFIG_SNTP_TIME_SYNC_METHOD_SMOOTH : Bool
  LWIP_DHCP_GET_NTP_SRV : Bool
  LWIP_IPV6 : Bool
  SNTP_MAX_SERVERS : Nat
  CONFIG_LWIP_SNTP_MAX_SERVERS : Nat

/-- What the SDK and the network decide. `portTICK_PERIOD_MS` is the tick
period of FreeRTOS in milliseconds (an unsigned constant, at least 1 on the
target), so the tick counts `500 / portTICK_PERIOD_MS` and
`2000 / portTICK_PERIOD_MS` are unsigned divisions. `localtime_r` takes the
value of `TZ` in force. `esp_netif_sntp_sync_wait i` is the
result of the `i`-th call (from 0) of the wait inside one `obtain_time`;
`sntp_clock` is the system clock (in microseconds) as the SNTP service leaves
it, given the clock when `obtain_time` started waiting. -/
structure Platform where
  portTICK_PERIOD_MS : Nat
  localtime_r : Option String → Int → tm
  nvs_flash_init : esp_err_t
  esp_netif_init : esp_err_t
  esp_event_loop_create_default : esp_err_t
  example_connect : esp_err_t
  example_disconnect : esp_err_t
  esp_netif_sntp_sync_wait : Nat → esp_err_t
  sntp_clock : Int → Int

/-- The mutable world outside the task: the system clock, in microseconds
since the epoch, and the `TZ` environment variable. -/
structure World where
  clock_us : Int
  TZ : Option String
deriving DecidableEq

/-- Calls made on the platform, in program order. -/
inductive Event where
  | tm1637_init
  | printf_year (tm_year : Int)
  | log_time_not_set
  | log_add_error
  | log_time_was_set
  | obtain_time
  | nvs_flash_init
  | esp_netif_init
  | esp_event_loop_create_default
  | log_sntp_setup (dhcp : Bool)
  | esp_netif_sntp_init (servers : Nat) (start smooth : Bool)
  | example_connect
  | log_starting_sntp
  | esp_netif_sntp_start
  | esp_sntp_setserver (idx : Nat)
  | print_servers
  | esp_netif_sntp_sync_wait (ticks : Nat)
  | log_waiting (retry retry_count : Int)
  | example_disconnect
  | esp_netif_sntp_deinit
  | abort
  | settimeofday (tv : timeval)
  | setenv (name value : String)
  | tzset
  | log_current_date (timeinfo : tm)
  | printf_now_address
  | tm1637_set_number_lead_dot (number : Int) (lead_zero : Bool) (dot_mask : Nat)
  | vTaskDelay (ticks : Nat)
deriving DecidableEq

/-! ## The system clock -/

/-- The call `time(&now)`: whole seconds of the system clock. -/
def time (w : World) : Int := w.clock_us / 1000000

/-- The call `gettimeofday(&tv, NULL)`. -/
def gettimeofday (w : World) : timeval :=
  { tv_sec := w.clock_us / 1000000, tv_usec := w.clock_us % 1000000 }

/-- The call `settimeofday(&tv, NULL)`. -/
def settimeofday (tv : timeval) (w : World) : World :=
  { w with clock_us := tv.tv_sec * 1000000 + tv.tv_usec }

/-- The call `vTaskDelay(ticks)`: the task sleeps and the clock runs on. -/
def vTaskDelay (P : Platform) (ticks : Nat) (w : World) : World :=
  { w with clock_us := w.clock_us + (ticks : Int) * P.portTICK_PERIOD_MS * 1000 }

/-! ## `obtain_time` -/

/-- One statement of a straight-line block: a plain call, or a call wrapped
in `ESP_ERROR_CHECK` together with the code it returned. -/
inductive Stmt where
  | call (e : Event)
  | check (e : Event) (rc : esp_err_t)

/-- Run a straight-line block; `ESP_ERROR_CHECK` aborts on a code other than
`ESP_OK`. The flag tells whether the block ran to its end. -/
def exec : List Stmt → List Event × Bool
  | [] => ([], true)
  | Stmt.call e :: rest => (e :: (exec rest).1, (exec rest).2)
  | Stmt.check e rc :: rest =>
    if rc = ESP_OK then (e :: (exec rest).1, (exec rest).2) else ([e, Event.abort], false)

def retry_count : Int := 15

/-- The loop
`while (esp_netif_sntp_sync_wait(2000 / portTICK_PERIOD_MS) == ESP_ERR_TIMEOUT
        && ++retry < retry_count) ESP_LOGI(...)`,
entered with `calls` waits already made and the counter at `retry`.
Returns the final counter and the trace, `none` when the fuel runs out. -/
def sntp_wait_loop (P : Platform) : Nat → Nat → Int → Option (Int × List Event)
  | 0, _, _ => none
  | fuel + 1, calls, retry =>
    let wait := Event.esp_netif_sntp_sync_wait (2000 / P.portTICK_PERIOD_MS)
    if P.esp_netif_sntp_sync_wait calls = ESP_ERR_TIMEOUT then
      let retry1 := int32 (retry + 1)
      if retry1 < retry_count then
        match sntp_wait_loop P fuel (calls + 1) retry1 with
        | none => none
        | some (r, evs) => some (r, wait :: Event.log_waiting retry1 retry_count :: evs)
      else some (retry1, [wait])
    else some (retry, [wait])

/-- Statements of `obtain_time` before the wait loop. -/
def obtain_time_head (C : Config) (P : Platform) : List Stmt :=
  [Stmt.call Event.obtain_time,
   Stmt.check Event.nvs_flash_init P.nvs_flash_init,
   Stmt.check Event.esp_netif_init P.esp_netif_init,
   Stmt.check Event.esp_event_loop_create_default P.esp_event_loop_create_default]
  ++ (if C.LWIP_DHCP_GET_NTP_SRV then
        [Stmt.call (Event.log_sntp_setup true),
         Stmt.call (Event.esp_netif_sntp_init 1 false false)]
      else [])
  ++ [Stmt.check Event.example_connect P.example_connect]
  ++ (if C.LWIP_DHCP_GET_NTP_SRV then
        [Stmt.call Event.log_starting_sntp, Stmt.call Event.esp_netif_sntp_start]
        ++ (if C.LWIP_IPV6 && decide (2 < C.SNTP_MAX_SERVERS) then
              [Stmt.call (Event.esp_sntp_setserver 2)]
            else [])
      else
        [Stmt.call (Event.log_sntp_setup false),
         Stmt.call (Event.esp_netif_sntp_init
            (if 1 < C.CONFIG_LWIP_SNTP_MAX_SERVERS then 2 else 1) true
            C.CONFIG_SNTP_TIME_SYNC_METHOD_SMOOTH)])
  ++ [Stmt.call Event.print_servers]

/-- Statements of `obtain_time` after the wait loop. -/
def obtain_time_tail (P : Platform) : List Stmt :=
  [Stmt.check Event.example_disconnect P.example_disconnect,
   Stmt.call Event.esp_netif_sntp_deinit]

/-- The function `obtain_time`. Result: the trace and the world it returns
in, `none` inside when an `ESP_ERROR_CHECK` aborted, `none` outside when the
wait loop ran out of fuel. -/
def obtain_time (C : Config) (P : Platform) (fuel : Nat) (w : World) :
    Option (List Event × Option World) :=
  let head := exec (obtain_time_head C P)
  if head.2 = false then some (head.1, none) else
  match sntp_wait_loop P fuel 0 0 with
  | none => none
  | some (_, evs) =>
    let w1 : World := { w with clock_us := P.sntp_clock w.clock_us }
    let tail := exec (obtain_time_tail P)
    some (head.1 ++ evs ++ tail.1, if tail.2 then some w1 else none)

/-! ## `lcd_tm1637_task` -/

/-- Local variables of `lcd_tm1637_task` that live across passes of its
loop, with the world. -/
structure TaskState where
  now : Int
  timeinfo : tm
  world : World
deriving DecidableEq

/-- The block that adds a 500 ms error to the system time:
`cpu_time = (int64_t)tv_now.tv_sec * 1000000L + (int64_t)tv_now.tv_usec;`
`error_time = cpu_time + 500 * 1000L;`
`tv_error = { error_time / 1000000L, error_time % 1000000L }`. -/
def tv_error (tv_now : timeval) : timeval :=
  let cpu_time := int64 (int64 (int64 tv_now.tv_sec * 1000000) + int64 tv_now.tv_usec)
  let error_time := int64 (cpu_time + int32 (500 * 1000))
  { tv_sec := int64 (Int.tdiv error_time 1000000),
    tv_usec := int32 (Int.tmod error_time 1000000) }

/-- The expression `100 * timeinfo.tm_hour + timeinfo.tm_min` in C `int`. -/
def time_number (timeinfo : tm) : Int :=
  int32 (int32 (100 * timeinfo.tm_hour) + timeinfo.tm_min)

/-- The loop `for (int z=0; z<2; ++z)` over the values of `z` it takes:
one display write, with the mask `z%2 ? 0xFF : 0x00`, and one delay per
value. -/
def blink_loop (P : Platform) (number : Int) : List Int → World → World × List Event
  | [], w => (w, [])
  | z :: zs, w =>
    let ticks := 500 / P.portTICK_PERIOD_MS
    let rest := blink_loop P number zs (vTaskDelay P ticks w)
    (rest.1,
     Event.tm1637_set_number_lead_dot number true (if Int.tmod z 2 ≠ 0 then 0xFF else 0x00)
       :: Event.vTaskDelay ticks :: rest.2)

/-- One pass of the body of `while (true)`. -/
def loop_pass (P : Platform) (s : TaskState) : TaskState × List Event :=
  let tm_test : timeval := { tv_sec := int64 (int64 (s.now - 3600) - 5400), tv_usec := 0 }
  let w1 := settimeofday tm_test s.world
  let blink := blink_loop P (time_number s.timeinfo) [0, 1] w1
  let now1 := int64 (s.now + 1)
  ({ now := now1, timeinfo := P.localtime_r blink.1.TZ now1, world := blink.1 },
   Event.settimeofday tm_test :: blink.2)

/-- State at the start of pass `k` (from 0), from the state at loop entry. -/
def state_after (P : Platform) : Nat → TaskState → TaskState
  | 0, s => s
  | k + 1, s => state_after P k (loop_pass P s).1

/-- Trace of the first `n` passes of the loop. -/
def run_passes (P : Platform) : Nat → TaskState → List Event
  | 0, _ => []
  | n + 1, s => (loop_pass P s).2 ++ run_passes P n (loop_pass P s).1

/-- The conditional of `lcd_tm1637_task` on `timeinfo.tm_year`, with the
branch that only exists in the build with smooth sync. Result: the trace,
and the world and the value of `now` it ends in (`none` inside when
`obtain_time` aborted, `none` outside when its wait loop ran out of fuel). -/
def lcd_tm1637_task_sync (C : Config) (P : Platform) (fuel : Nat) (w : World)
    (now : Int) (timeinfo : tm) : Option (List Event × Option (World × Int)) :=
  if timeinfo.tm_year < 2016 - 1900 then
    match obtain_time C P fuel w with
    | none => none
    | some (t, none) => some (Event.log_time_not_set :: t, none)
    | some (t, some w1) => some (Event.log_time_not_set :: t, some (w1, time w1))
  else if C.CONFIG_SNTP_TIME_SYNC_METHOD_SMOOTH then
    let tv := tv_error (gettimeofday w)
    let head := [Event.log_add_error, Event.settimeofday tv, Event.log_time_was_set]
    match obtain_time C P fuel (settimeofday tv w) with
    | none => none
    | some (t, none) => some (head ++ t, none)
    | some (t, some w1) => some (head ++ t, some (w1, time w1))
  else some ([], some (w, now))

/-- The part of `lcd_tm1637_task` before `while (true)`. Result: the trace
and the state at loop entry (`none` inside when `obtain_time` aborted,
`none` outside when its wait loop ran out of fuel). -/
def lcd_tm1637_task_setup (C : Config) (P : Platform) (fuel : Nat) (w : World) :
    Option (List Event × Option TaskState) :=
  let now := time w
  let timeinfo := P.localtime_r w.TZ now
  let pre := [Event.tm1637_init, Event.printf_year timeinfo.tm_year]
  match lcd_tm1637_task_sync C P fuel w now timeinfo with
  | none => none
  | some (t, none) => some (pre ++ t, none)
  | some (t, some (w2, now2)) =>
    let w3 : World := { w2 with TZ := some "IST-5:30" }
    let timeinfo2 := P.localtime_r w3.TZ now2
    some (pre ++ t ++ [Event.setenv "TZ" "IST-5:30", Event.tzset,
                       Event.log_current_date timeinfo2, Event.printf_now_address],
          some { now := now2, timeinfo := timeinfo2, world := w3 })

/-- The function `lcd_tm1637_task`, observed for its first `passes` passes:
the trace of the setup followed by that of the passes. -/
def lcd_tm1637_task (C : Config) (P : Platform) (fuel : Nat) (passes : Nat) (w : World) :
    Option (List Event) :=
  match lcd_tm1637_task_setup C P fuel w with
  | none => none
  | some (t, none) => some t
  | some (t, some s) => some (t ++ run_passes P passes s)

/-! ## A concrete platform

A model of `localtime_r` of the C library for the two zones the program runs
in (no `TZ`: UTC; `TZ=IST-5:30`: UTC+5:30, no daylight saving), and a
platform on which every call succeeds. The general theorems do not depend on
it; it gives them concrete instances. -/

/-- Offset from UTC, in seconds, of the zone named by `TZ`. -/
def tz_offset : Option String → Int
  | some "IST-5:30" => 5 * 3600 + 30 * 60
  | _ => 0

/-- Whether the Gregorian year `y` is a leap year. -/
def is_leap (y : Int) : Bool :=
  (y % 4 == 0 && y % 100 != 0) || y % 400 == 0

/-- Broken-down time of `t` seconds since the epoch in the zone `TZ`
(proleptic Gregorian calendar, days counted from 1 March inside a 400 year
era). -/
def localtime_model (TZ : Option String) (t : Int) : tm :=
  let l := t + tz_offset TZ
  let days := l / 86400
  let secs := l % 86400
  let z := days + 719468
  let era := z / 146097
  let doe := z % 146097
  let yoe := (doe - doe / 1460 + doe / 36524 - doe / 146096) / 365
  let doy := doe - (365 * yoe + yoe / 4 - yoe / 100)
  let mp := (5 * doy + 2) / 153
  let mday := doy - (153 * mp + 2) / 5 + 1
  let mon := if mp < 10 then mp + 2 else mp - 10
  let year := yoe + era * 400 + (if mon ≤ 1 then 1 else 0)
  { tm_sec := secs % 60,
    tm_min := secs / 60 % 60,
    tm_hour := secs / 3600,
    tm_mday := mday,
    tm_mon := mon,
    tm_year := year - 1900,
    tm_wday := (days + 4) % 7,
    tm_yday := if mon ≤ 1 then doy - 306 else doy + 59 + (if is_leap year then 1 else 0),
    tm_isdst := 0 }

/-- A platform with a 10 ms tick on which every call succeeds at once and
the SNTP service sets the clock to 2023-11-14 22:13:20 UTC. -/
def demoPlatform : Platform :=
  { portTICK_PERIOD_MS := 10,
    localtime_r := localtime_model,
    nvs_flash_init := ESP_OK,
    esp_netif_init := ESP_OK,
    esp_event_loop_create_default := ESP_OK,
    example_connect := ESP_OK,
    example_disconnect := ESP_OK,
    esp_netif_sntp_sync_wait := fun _ => ESP_OK,
    sntp_clock := fun _ => 1700000000 * 1000000 }

/-- The build without smooth sync, one SNTP server, servers not from DHCP. -/
def demoConfig : Config :=
  { CONFIG_SNTP_TIME_SYNC_METHOD_SMOOTH := false,
    LWIP_DHCP_GET_NTP_SRV := false,
    LWIP_IPV6 := false,
    SNTP_MAX_SERVERS := 1,
    CONFIG_LWIP_SNTP_MAX_SERVERS := 1 }

/-- A world at power-up: the clock at the epoch, `TZ` not set. -/
def bootWorld : World := { clock_us := 0, TZ := none }

/-- The state in which the loop is entered on `demoPlatform` from
`bootWorld`: 2023-11-15 03:43:20 in the zone of the display. -/
def demoState : TaskState :=
  { now := 1700000000,
    timeinfo := localtime_model (some "IST-5:30") 1700000000,
    world := { clock_us := 1700000000 * 1000000, TZ := some "IST-5:30" } }

/-- A state at the start of a pass at 09:05:00 in the zone of the display. -/
def morningState : TaskState :=
  { now := 1699932900,
    timeinfo := localtime_model (some "IST-5:30") 1699932900,
    world := { clock_us := 1699932900 * 1000000, TZ := some "IST-5:30" } }

/-- The platform `demoPlatform`, but the first two waits for the time run
into their timeout. -/
def slowPlatform : Platform :=
  { demoPlatform with
    esp_netif_sntp_sync_wait := fun i => if i < 2 then ESP_ERR_TIMEOUT else ESP_OK }

/-- A reading of the clock in the second half of a second. -/
def demoTimeval : timeval := { tv_sec := 1700000000, tv_usec := 623456 }

/-- A world whose clock already shows 2023-11-14 22:13:20 UTC, `TZ` not set. -/
def syncedWorld : World := { clock_us := 1700000000 * 1000000, TZ := none }

/-! ## The display driver, from the specification -/

/-- What one of the four positions of the display shows. -/
inductive Digit where
  | Blank
  | digit (n : Nat)
deriving DecidableEq

inductive DisplayError where
  | OutOfRange
deriving DecidableEq

/-- Leading-zero suppression over the decimal digits of a number, most
significant first: zeros in front become `Blank`, the last place is kept. -/
def suppress_leading : List Nat → List Digit
  | [] => []
  | [ones] => [Digit.digit ones]
  | 0 :: rest => Digit.Blank :: suppress_leading rest
  | n :: rest => Digit.digit n :: rest.map Digit.digit

/-- Modelled from the spec: `encode_number` of the Segment Encoder, whose
source (the TM1637 driver component) is not part of `main/main.c`. The value
is decomposed into thousands, hundreds, tens and ones; with
`leading_zero_suppression` the leading zero digits are replaced with `Blank`,
except that the ones place is never suppressed; a value below 0 or above 9999
fails with `OutOfRange`. The result is kept at the level of digits, before
the segment table is applied. -/
def encode_number (value : Int) (leading_zero_suppression : Bool) :
    Except DisplayError (List Digit) :=
  if value < 0 ∨ 9999 < value then Except.error DisplayError.OutOfRange
  else
    let v := value.toNat
    let ds := [v / 1000, v / 100 % 10, v / 10 % 10, v % 10]
    Except.ok (if leading_zero_suppression then suppress_leading ds else ds.map Digit.digit)

/-- Modelled from the spec: the digits the Display Session shows for the call
`tm1637_set_number_lead_dot(lcd, number, lead_zero, dot_mask)` of the driver,
which is not part of `main/main.c`: the number encoded by `encode_number`
under the leading-blank flag; the indicator mask only touches the indicator
bit of a position, not the digit it shows. -/
def shown_digits (number : Int) (lead_zero : Bool) (_dot_mask : Nat) :
    Except DisplayError (List Digit) :=
  encode_number number lead_zero

/-! ## Observations on a trace -/

/-- The display writes of a trace: number, leading flag and indicator mask
of each, in order. -/
def display_writes : List Event → List (Int × Bool × Nat)
  | [] => []
  | Event.tm1637_set_number_lead_dot n l m :: rest => (n, l, m) :: display_writes rest
  | _ :: rest => display_writes rest

/-- The indicator masks of the display writes of a trace, in order. -/
def write_masks (t : List Event) : List Nat :=
  (display_writes t).map (fun x => x.2.2)

/-- The tick counts of the delays of a trace, in order. -/
def delays : List Event → List Nat
  | [] => []
  | Event.vTaskDelay ticks :: rest => ticks :: delays rest
  | _ :: rest => delays rest

/-- How many calls of `esp_netif_sntp_sync_wait` a trace has. -/
def sync_waits : List Event → Nat
  | [] => 0
  | Event.esp_netif_sntp_sync_wait _ :: rest => sync_waits rest + 1
  | _ :: rest => sync_waits rest

/-- The "Waiting for system time to be set... (retry/retry_count)" messages
of a trace, as the pairs of numbers they print, in order. -/
def waiting_logs : List Event → List (Int × Int)
  | [] => []
  | Event.log_waiting r c :: rest => (r, c) :: waiting_logs rest
  | _ :: rest => waiting_logs rest

/-- The trace of a wait loop that logs `m` times, counting from `c + 1`:
each of the first `m` waits is followed by its message, then comes one last
wait. -/
def wait_trace (ticks : Nat) : Nat → Int → List Event
  | 0, _ => [Event.esp_netif_sntp_sync_wait ticks]
  | m + 1, c =>
    Event.esp_netif_sntp_sync_wait ticks :: Event.log_waiting (c + 1) retry_count
      :: wait_trace ticks m (c + 1)

/-- How often `obtain_time` is entered in a trace. -/
def obtain_time_calls (t : List Event) : Nat :=
  t.count Event.obtain_time

/-- The world right after the `settimeofday` call of the pass started in `s`. -/
def world_in_pass (s : TaskState) : World :=
  settimeofday { tv_sec := int64 (int64 (s.now - 3600) - 5400), tv_usec := 0 } s.world

/-- The pass started in `s` renders the wall-clock reading: every display
write of the pass carries `100 * tm_hour + tm_min` of the broken-down system
time as it stands after the `settimeofday` call of the pass. -/
def renders_system_time (P : Platform) (s : TaskState) : Prop :=
  ∀ x ∈ display_writes (loop_pass P s).2,
    x.1 = 100 * (P.localtime_r (world_in_pass s).TZ (time (world_in_pass s))).tm_hour
            + (P.localtime_r (world_in_pass s).TZ (time (world_in_pass s))).tm_min

/-- The C expression `100 * tm_hour + tm_min` stays inside `int`. -/
def time_number_defined (timeinfo : tm) : Prop :=
  -2 ^ 31 ≤ 100 * timeinfo.tm_hour ∧ 100 * timeinfo.tm_hour < 2 ^ 31 ∧
  -2 ^ 31 ≤ 100 * timeinfo.tm_hour + timeinfo.tm_min ∧
  100 * timeinfo.tm_hour + timeinfo.tm_min < 2 ^ 31

/-- Hour and minute are in the range of a broken-down time of the C library. -/
def clock_fields_valid (timeinfo : tm) : Prop :=
  0 ≤ timeinfo.tm_hour ∧ timeinfo.tm_hour ≤ 23 ∧ 0 ≤ timeinfo.tm_min ∧ timeinfo.tm_min ≤ 59

instance : DecidablePred time_number_defined := fun _ => by
  unfold time_number_defined; infer_instance

instance : DecidablePred clock_fields_valid := fun _ => by
  unfold clock_fields_valid; infer_instance

/-! ## Lemmas -/

lemma int32_eq_self {x : Int} (h1 : -2 ^ 31 ≤ x) (h2 : x < 2 ^ 31) : int32 x = x := by
  unfold int32 wrapInt
  norm_num at h1 h2 ⊢
  omega

lemma int64_eq_self {x : Int} (h1 : -2 ^ 63 ≤ x) (h2 : x < 2 ^ 63) : int64 x = x := by
  unfold int64 wrapInt
  norm_num at h1 h2 ⊢
  omega

lemma time_number_eq {ti : tm} (h : time_number_defined ti) :
    time_number ti = 100 * ti.tm_hour + ti.tm_min := by
  obtain ⟨h1, h2, h3, h4⟩ := h
  unfold time_number
  rw [int32_eq_self h1 h2, int32_eq_self h3 h4]

lemma defined_of_valid {ti : tm} (h : clock_fields_valid ti) : time_number_defined ti := by
  obtain ⟨h1, h2, h3, h4⟩ := h
  unfold time_number_defined
  norm_num
  omega

/-- The trace of one pass, written out. -/
lemma loop_pass_trace (P : Platform) (s : TaskState) :
    (loop_pass P s).2 =
      [Event.settimeofday { tv_sec := int64 (int64 (s.now - 3600) - 5400), tv_usec := 0 },
       Event.tm1637_set_number_lead_dot (time_number s.timeinfo) true 0x00,
       Event.vTaskDelay (500 / P.portTICK_PERIOD_MS),
       Event.tm1637_set_number_lead_dot (time_number s.timeinfo) true 0xFF,
       Event.vTaskDelay (500 / P.portTICK_PERIOD_MS)] := by
  have h0 : Int.tmod 0 2 = 0 := by decide
  have h1 : Int.tmod 1 2 ≠ 0 := by decide
  simp [loop_pass, blink_loop, h0, h1]

lemma run_passes_succ (P : Platform) (n : Nat) (s : TaskState) :
    run_passes P (n + 1) s =
      Event.settimeofday { tv_sec := int64 (int64 (s.now - 3600) - 5400), tv_usec := 0 }
        :: Event.tm1637_set_number_lead_dot (time_number s.timeinfo) true 0x00
        :: Event.vTaskDelay (500 / P.portTICK_PERIOD_MS)
        :: Event.tm1637_set_number_lead_dot (time_number s.timeinfo) true 0xFF
        :: Event.vTaskDelay (500 / P.portTICK_PERIOD_MS)
        :: run_passes P n (loop_pass P s).1 := by
  rw [run_passes, loop_pass_trace]
  rfl

lemma write_masks_run_succ (P : Platform) (n : Nat) (s : TaskState) :
    write_masks (run_passes P (n + 1) s) =
      0x00 :: 0xFF :: write_masks (run_passes P n (loop_pass P s).1) := by
  rw [run_passes_succ]
  rfl

lemma delays_run_succ (P : Platform) (n : Nat) (s : TaskState) :
    delays (run_passes P (n + 1) s) =
      500 / P.portTICK_PERIOD_MS :: 500 / P.portTICK_PERIOD_MS
        :: delays (run_passes P n (loop_pass P s).1) := by
  rw [run_passes_succ]
  rfl

lemma write_masks_length (P : Platform) (n : Nat) (s : TaskState) :
    (write_masks (run_passes P n s)).length = 2 * n := by
  induction n generalizing s with
  | zero => rfl
  | succ n ih =>
    rw [write_masks_run_succ, List.length_cons, List.length_cons, ih]
    omega

lemma write_masks_get (P : Platform) (n : Nat) (s : TaskState) (k : Nat) (hk : k < 2 * n) :
    (write_masks (run_passes P n s))[k]? = some (if k % 2 = 0 then 0x00 else 0xFF) := by
  induction n generalizing s k with
  | zero => omega
  | succ n ih =>
    rw [write_masks_run_succ]
    match k, hk with
    | 0, _ => simp
    | 1, _ => simp
    | k + 2, hk =>
      rw [List.getElem?_cons_succ, List.getElem?_cons_succ, ih _ k (by omega)]
      have : (k + 2) % 2 = k % 2 := by omega
      rw [this]

lemma delays_run (P : Platform) (n : Nat) (s : TaskState) :
    delays (run_passes P n s) = List.replicate (2 * n) (500 / P.portTICK_PERIOD_MS) := by
  induction n generalizing s with
  | zero => rfl
  | succ n ih =>
    rw [delays_run_succ, ih]
    have : 2 * (n + 1) = (2 * n + 1) + 1 := by omega
    rw [this, List.replicate_succ, List.replicate_succ]

lemma run_passes_head_not_delay (P : Platform) (n : Nat) (s : TaskState) (t : Nat) :
    (run_passes P n s)[0]? ≠ some (Event.vTaskDelay t) := by
  cases n with
  | zero => simp [run_passes]
  | succ n => rw [run_passes_succ]; simp

lemma write_then_delay (P : Platform) (n : Nat) (s : TaskState) (i : Nat)
    (num : Int) (lead : Bool) (mask : Nat)
    (h : (run_passes P n s)[i]? = some (Event.tm1637_set_number_lead_dot num lead mask)) :
    (run_passes P n s)[i + 1]? = some (Event.vTaskDelay (500 / P.portTICK_PERIOD_MS)) ∧
    ∀ t, (run_passes P n s)[i + 2]? ≠ some (Event.vTaskDelay t) := by
  induction n generalizing s i with
  | zero => simp [run_passes] at h
  | succ n ih =>
    rw [run_passes_succ] at h ⊢
    match i, h with
    | 0, h => simp at h
    | 1, _ => simp
    | 2, h => simp at h
    | 3, _ =>
      refine ⟨by simp, ?_⟩
      intro t
      simpa using run_passes_head_not_delay P n (loop_pass P s).1 t
    | 4, h => simp at h
    | i + 5, h =>
      simp only [List.getElem?_cons_succ] at h ⊢
      exact ih _ i h

lemma run_passes_prefix (P : Platform) (n m : Nat) (s : TaskState) :
    run_passes P n s <+: run_passes P (n + m) s := by
  induction n generalizing s with
  | zero => exact List.nil_prefix
  | succ n ih =>
    have : n + 1 + m = (n + m) + 1 := by omega
    rw [this, run_passes_succ, run_passes_succ]
    simp only [List.cons_prefix_cons, true_and]
    exact ih _

lemma sync_waits_wait_trace (ticks m : Nat) (c : Int) :
    sync_waits (wait_trace ticks m c) = m + 1 := by
  induction m generalizing c with
  | zero => rfl
  | succ m ih => simp [wait_trace, sync_waits, ih]

lemma waiting_logs_wait_trace (ticks m : Nat) (c : Int) :
    waiting_logs (wait_trace ticks m c) =
      (List.range m).map (fun (i : Nat) => (c + (i : Int) + 1, (15 : Int))) := by
  induction m generalizing c with
  | zero => rfl
  | succ m ih =>
    simp only [wait_trace, waiting_logs, ih, List.range_succ_eq_map, List.map_cons,
      List.map_map, retry_count, Nat.cast_zero, add_zero, List.cons.injEq, true_and]
    apply List.map_congr_left
    intro i _
    simp only [Function.comp_apply, Nat.cast_succ]
    ring_nf

/-- The wait loop entered after `c` timed-out waits: with enough fuel it
returns, having logged `m` more times, where the `m` results from `c` on are
timeouts and either `c + m = 14` or the next result is not a timeout. -/
lemma sntp_wait_loop_spec (P : Platform) (fuel c : Nat) (hc : c ≤ 14) (hf : 15 ≤ fuel + c) :
    ∃ m r, c + m ≤ 14 ∧
      (∀ i, c ≤ i → i < c + m → P.esp_netif_sntp_sync_wait i = ESP_ERR_TIMEOUT) ∧
      (c + m < 14 → P.esp_netif_sntp_sync_wait (c + m) ≠ ESP_ERR_TIMEOUT) ∧
      sntp_wait_loop P fuel c c = some (r, wait_trace (2000 / P.portTICK_PERIOD_MS) m c) := by
  induction fuel generalizing c with
  | zero => omega
  | succ fuel ih =>
    by_cases ht : P.esp_netif_sntp_sync_wait c = ESP_ERR_TIMEOUT
    · have h32 : int32 ((c : Int) + 1) = (c : Int) + 1 :=
        int32_eq_self (by norm_num; omega) (by norm_num; omega)
      by_cases hlt : c + 1 ≤ 14
      · obtain ⟨m, r, h1, h2, h3, h4⟩ := ih (c + 1) hlt (by omega)
        refine ⟨m + 1, r, by omega, ?_, ?_, ?_⟩
        · intro i hi1 hi2
          by_cases hic : i = c
          · rw [hic]; exact ht
          · exact h2 i (by omega) (by omega)
        · intro hlt2
          have := h3 (by omega)
          rwa [show c + (m + 1) = c + 1 + m by omega]
        · have hcond : (c : Int) + 1 < retry_count := by
            unfold retry_count; omega
          rw [sntp_wait_loop]
          simp only [ht, if_true, h32, hcond]
          rw [show ((c : Int) + 1) = ((c + 1 : Nat) : Int) by push_cast; rfl, h4]
          simp only [wait_trace, Nat.cast_succ]
      · have hc14 : c = 14 := by omega
        refine ⟨0, (c : Int) + 1, by omega, ?_, by omega, ?_⟩
        · intro i hi1 hi2; omega
        · have hcond : ¬ ((c : Int) + 1 < retry_count) := by
            unfold retry_count; omega
          rw [sntp_wait_loop]
          simp only [ht, if_true, h32, hcond, if_false, wait_trace]
    · refine ⟨0, (c : Int), by omega, ?_, fun _ => ht, ?_⟩
      · intro i hi1 hi2; omega
      · rw [sntp_wait_loop]
        simp only [ht, if_false, wait_trace]

lemma count_wait_trace (e : Event) (ticks m : Nat) (c : Int)
    (h1 : ∀ t, e ≠ Event.esp_netif_sntp_sync_wait t) (h2 : ∀ r k, e ≠ Event.log_waiting r k) :
    (wait_trace ticks m c).count e = 0 := by
  induction m generalizing c with
  | zero =>
    rw [wait_trace, List.count_cons, List.count_nil]
    simp [Ne.symm (h1 ticks)]
  | succ m ih =>
    rw [wait_trace, List.count_cons, List.count_cons, ih]
    simp [Ne.symm (h1 ticks), Ne.symm (h2 (c + 1) retry_count)]

lemma count_obtain_time_head (C : Config) (P : Platform) :
    (exec (obtain_time_head C P)).1.count Event.obtain_time = 1 ∧
    (exec (obtain_time_head C P)).1.count Event.log_time_not_set = 0 := by
  unfold obtain_time_head
  by_cases h1 : P.nvs_flash_init = ESP_OK <;>
  by_cases h2 : P.esp_netif_init = ESP_OK <;>
  by_cases h3 : P.esp_event_loop_create_default = ESP_OK <;>
  by_cases h4 : P.example_connect = ESP_OK <;>
  cases C.LWIP_DHCP_GET_NTP_SRV <;>
  cases C.LWIP_IPV6 <;>
  by_cases h5 : 2 < C.SNTP_MAX_SERVERS <;>
  simp [exec, h1, h2, h3, h4, h5]

lemma count_obtain_time_tail (P : Platform) :
    (exec (obtain_time_tail P)).1.count Event.obtain_time = 0 ∧
    (exec (obtain_time_tail P)).1.count Event.log_time_not_set = 0 := by
  unfold obtain_time_tail
  by_cases h1 : P.example_disconnect = ESP_OK <;> simp [exec, h1]

lemma obtain_time_head_cons (C : Config) (P : Platform) :
    ∃ rest, (exec (obtain_time_head C P)).1 = Event.obtain_time :: rest :=
  ⟨_, rfl⟩

/-- With fuel 15 or more `obtain_time` returns (or aborts); its trace starts
with the entry into `obtain_time`, enters it once and does not log "Time is
not set yet". -/
lemma obtain_time_returns (C : Config) (P : Platform) (fuel : Nat) (hfuel : 15 ≤ fuel)
    (w : World) :
    ∃ t ow, obtain_time C P fuel w = some (t, ow) ∧
      t.count Event.obtain_time = 1 ∧ t.count Event.log_time_not_set = 0 ∧
      ∃ rest, t = Event.obtain_time :: rest := by
  obtain ⟨m, r, -, -, -, h4⟩ := sntp_wait_loop_spec P fuel 0 (by omega) (by omega)
  simp only [Nat.cast_zero] at h4
  obtain ⟨hh1, hh2⟩ := count_obtain_time_head C P
  obtain ⟨ht1, ht2⟩ := count_obtain_time_tail P
  obtain ⟨hd, hhd⟩ := obtain_time_head_cons C P
  unfold obtain_time
  by_cases hab : (exec (obtain_time_head C P)).2 = false
  · exact ⟨_, none, by simp only [hab, if_true], hh1, hh2, hd, hhd⟩
  · simp only [hab, if_false, h4]
    refine ⟨_, _, rfl, ?_, ?_, ?_⟩
    · rw [List.count_append, List.count_append, hh1, ht1,
        count_wait_trace _ _ _ _ (by intro t; exact Event.noConfusion)
          (by intro a b; exact Event.noConfusion)]
    · rw [List.count_append, List.count_append, hh2, ht2,
        count_wait_trace _ _ _ _ (by intro t; exact Event.noConfusion)
          (by intro a b; exact Event.noConfusion)]
    · exact ⟨_, by rw [hhd]; rfl⟩

lemma tv_error_eq (tv_now : timeval) (hsec : 0 ≤ tv_now.tv_sec) (hus : 0 ≤ tv_now.tv_usec)
    (hus1 : tv_now.tv_usec < 1000000)
    (hno : tv_now.tv_sec * 1000000 + tv_now.tv_usec + 500000 < 2 ^ 63) :
    tv_error tv_now =
      { tv_sec := (tv_now.tv_sec * 1000000 + tv_now.tv_usec + 500000) / 1000000,
        tv_usec := (tv_now.tv_sec * 1000000 + tv_now.tv_usec + 500000) % 1000000 } := by
  norm_num at hno
  have e1 : int64 tv_now.tv_sec = tv_now.tv_sec :=
    int64_eq_self (by norm_num; omega) (by norm_num; omega)
  have e2 : int64 tv_now.tv_usec = tv_now.tv_usec :=
    int64_eq_self (by norm_num; omega) (by norm_num; omega)
  have e3 : int64 (tv_now.tv_sec * 1000000) = tv_now.tv_sec * 1000000 :=
    int64_eq_self (by norm_num; omega) (by norm_num; omega)
  have e4 : int64 (tv_now.tv_sec * 1000000 + tv_now.tv_usec)
      = tv_now.tv_sec * 1000000 + tv_now.tv_usec :=
    int64_eq_self (by norm_num; omega) (by norm_num; omega)
  have e5 : int32 (500 * 1000) = 500000 := by decide
  have e6 : int64 (tv_now.tv_sec * 1000000 + tv_now.tv_usec + 500000)
      = tv_now.tv_sec * 1000000 + tv_now.tv_usec + 500000 :=
    int64_eq_self (by norm_num; omega) (by norm_num; omega)
  have hnn : 0 ≤ tv_now.tv_sec * 1000000 + tv_now.tv_usec + 500000 := by omega
  have e7 : int64 ((tv_now.tv_sec * 1000000 + tv_now.tv_usec + 500000) / 1000000)
      = (tv_now.tv_sec * 1000000 + tv_now.tv_usec + 500000) / 1000000 :=
    int64_eq_self (by norm_num; omega) (by norm_num; omega)
  have e8 : int32 ((tv_now.tv_sec * 1000000 + tv_now.tv_usec + 500000) % 1000000)
      = (tv_now.tv_sec * 1000000 + tv_now.tv_usec + 500000) % 1000000 :=
    int32_eq_self (by norm_num; omega) (by norm_num; omega)
  unfold tv_error
  simp only [e1, e2, e3, e4, e5, e6, Int.tdiv_eq_ediv hnn (by norm_num : (0 : Int) ≤ 1000000),
    Int.tmod_eq_emod hnn (by norm_num : (0 : Int) ≤ 1000000), e7, e8]

lemma run_passes_events (P : Platform) (n : Nat) (s : TaskState) :
    ∀ e ∈ run_passes P n s,
      (∃ tv, e = Event.settimeofday tv) ∨
      (∃ num lead mask, e = Event.tm1637_set_number_lead_dot num lead mask) ∨
      (∃ ticks, e = Event.vTaskDelay ticks) := by
  induction n generalizing s with
  | zero => intro e he; simp [run_passes] at he
  | succ n ih =>
    intro e he
    rw [run_passes_succ] at he
    simp only [List.mem_cons] at he
    rcases he with h | h | h | h | h | h
    · exact Or.inl ⟨_, h⟩
    · exact Or.inr (Or.inl ⟨_, _, _, h⟩)
    · exact Or.inr (Or.inr ⟨_, h⟩)
    · exact Or.inr (Or.inl ⟨_, _, _, h⟩)
    · exact Or.inr (Or.inr ⟨_, h⟩)
    · exact ih _ e h

lemma run_passes_no_obtain_time (P : Platform) (n : Nat) (s : TaskState) :
    obtain_time_calls (run_passes P n s) = 0 := by
  unfold obtain_time_calls
  rw [List.count_eq_zero]
  intro hmem
  rcases run_passes_events P n s _ hmem with ⟨_, h⟩ | ⟨_, _, _, h⟩ | ⟨_, h⟩ <;>
    exact Event.noConfusion h

/-- At loop entry `timeinfo` is the broken-down time of `now` in the zone
that `setenv` has just selected. -/
lemma setup_invariant (C : Config) (P : Platform) (fuel : Nat) (w : World)
    (t : List Event) (s0 : TaskState)
    (h : lcd_tm1637_task_setup C P fuel w = some (t, some s0)) :
    s0.world.TZ = some "IST-5:30" ∧ s0.timeinfo = P.localtime_r (some "IST-5:30") s0.now := by
  unfold lcd_tm1637_task_setup at h
  simp only at h
  split at h
  · exact Option.noConfusion h
  · simp only [Option.some.injEq, Prod.mk.injEq, reduceCtorEq, and_false] at h
  · simp only [Option.some.injEq, Prod.mk.injEq] at h
    obtain ⟨-, hs⟩ := h
    rw [← hs]
    exact ⟨rfl, rfl⟩

lemma loop_pass_state (P : Platform) (s : TaskState) :
    (loop_pass P s).1.now = int64 (s.now + 1) ∧
    (loop_pass P s).1.world.TZ = s.world.TZ ∧
    (loop_pass P s).1.timeinfo = P.localtime_r s.world.TZ (int64 (s.now + 1)) := by
  simp [loop_pass, blink_loop, vTaskDelay, settimeofday]

/-- The counter `now` goes up by one per pass and `timeinfo` follows it. -/
lemma state_after_invariant (P : Platform) (k : Nat) (s : TaskState) (TZ : Option String)
    (htz : s.world.TZ = TZ) (hti : s.timeinfo = P.localtime_r TZ s.now)
    (hlo : 0 ≤ s.now) (hhi : s.now + k < 2 ^ 63) :
    (state_after P k s).now = s.now + k ∧
    (state_after P k s).world.TZ = TZ ∧
    (state_after P k s).timeinfo = P.localtime_r TZ (s.now + k) := by
  induction k generalizing s with
  | zero => simpa [state_after] using ⟨htz, hti⟩
  | succ k ih =>
    obtain ⟨h1, h2, h3⟩ := loop_pass_state P s
    have hnow : int64 (s.now + 1) = s.now + 1 := by
      apply int64_eq_self
      · norm_num; omega
      · push_cast at hhi; omega
    rw [hnow] at h1 h3
    rw [htz] at h2 h3
    have := ih (loop_pass P s).1 h2 (by rw [h3, h1]) (by rw [h1]; omega)
      (by rw [h1]; push_cast at hhi; omega)
    rw [h1] at this
    rw [state_after]
    push_cast
    rw [show s.now + ((k : Int) + 1) = s.now + 1 + k by ring]
    exact this

/-! ## The number on the display -/

/-- C1. In every pass of the rendering loop (pass `k`, from 0, of the loop
entered in any state `s0`) in which `100 * tm_hour + tm_min` of the
broken-down time held at the start of the pass is defined in C `int`, the
trace of the pass is the `settimeofday` call followed by two display writes,
each followed by a delay, and both writes carry exactly
`100 * tm_hour + tm_min` of that broken-down time, with the leading flag
true. -/
theorem time_number_of_pass (P : Platform) (s0 : TaskState) (k : Nat)
    (hdef : time_number_defined (state_after P k s0).timeinfo) :
    (loop_pass P (state_after P k s0)).2 =
      [Event.settimeofday
         { tv_sec := int64 (int64 ((state_after P k s0).now - 3600) - 5400), tv_usec := 0 },
       Event.tm1637_set_number_lead_dot
         (100 * (state_after P k s0).timeinfo.tm_hour + (state_after P k s0).timeinfo.tm_min)
         true 0x00,
       Event.vTaskDelay (500 / P.portTICK_PERIOD_MS),
       Event.tm1637_set_number_lead_dot
         (100 * (state_after P k s0).timeinfo.tm_hour + (state_after P k s0).timeinfo.tm_min)
         true 0xFF,
       Event.vTaskDelay (500 / P.portTICK_PERIOD_MS)] ∧
    display_writes (loop_pass P (state_after P k s0)).2 =
      [(100 * (state_after P k s0).timeinfo.tm_hour + (state_after P k s0).timeinfo.tm_min,
          true, 0x00),
       (100 * (state_after P k s0).timeinfo.tm_hour + (state_after P k s0).timeinfo.tm_min,
          true, 0xFF)] := by
  rw [loop_pass_trace, time_number_eq hdef]
  exact ⟨rfl, rfl⟩

theorem time_number_of_pass_witness :
    time_number_defined (state_after demoPlatform 2 demoState).timeinfo ∧
    display_writes (loop_pass demoPlatform (state_after demoPlatform 2 demoState)).2 =
      [(343, true, 0x00), (343, true, 0xFF)] :=
  ⟨by decide, (time_number_of_pass demoPlatform demoState 2 (by decide)).2⟩

/-- C2. In a pass started with `tm_hour = 9` and `tm_min = 5` both display
writes carry the number 905 with the leading flag true, and for each of them
the display, as the specification describes the encoder, shows the digits
`[Blank, 9, 0, 5]`. -/
theorem nine_oh_five (P : Platform) (s : TaskState)
    (hh : s.timeinfo.tm_hour = 9) (hm : s.timeinfo.tm_min = 5) :
    display_writes (loop_pass P s).2 = [(905, true, 0x00), (905, true, 0xFF)] ∧
    ∀ w ∈ display_writes (loop_pass P s).2,
      shown_digits w.1 w.2.1 w.2.2 =
        Except.ok [Digit.Blank, Digit.digit 9, Digit.digit 0, Digit.digit 5] := by
  have hn : time_number s.timeinfo = 905 := by
    have hd : time_number_defined s.timeinfo := by
      unfold time_number_defined
      rw [hh, hm]
      decide
    rw [time_number_eq hd, hh, hm]
    rfl
  have hw : display_writes (loop_pass P s).2 = [(905, true, 0x00), (905, true, 0xFF)] := by
    rw [loop_pass_trace, hn]
    rfl
  refine ⟨hw, ?_⟩
  intro w hmem
  rw [hw] at hmem
  simp only [List.mem_cons, List.mem_singleton, List.not_mem_nil, or_false] at hmem
  rcases hmem with h | h <;> subst h <;> rfl

theorem nine_oh_five_witness :
    morningState.timeinfo.tm_hour = 9 ∧ morningState.timeinfo.tm_min = 5 ∧
    display_writes (loop_pass demoPlatform morningState).2 =
      [(905, true, 0x00), (905, true, 0xFF)] ∧
    shown_digits 905 true 0xFF =
      Except.ok [Digit.Blank, Digit.digit 9, Digit.digit 0, Digit.digit 5] :=
  ⟨by decide, by decide,
   (nine_oh_five demoPlatform morningState (by decide) (by decide)).1,
   (nine_oh_five demoPlatform morningState (by decide) (by decide)).2 (905, true, 0xFF)
     (by rw [(nine_oh_five demoPlatform morningState (by decide) (by decide)).1]; simp)⟩

/-- C5. For every broken-down time with `0 ≤ tm_hour ≤ 23` and
`0 ≤ tm_min ≤ 59` held at the start of a pass, the number computed by the
loop lies between 0 and 2359, hence is neither negative nor above 9999, and
every display write of the pass carries a number in that range. -/
theorem time_number_in_range (P : Platform) (s : TaskState)
    (hvalid : clock_fields_valid s.timeinfo) :
    (0 ≤ time_number s.timeinfo ∧ time_number s.timeinfo ≤ 2359 ∧
      time_number s.timeinfo ≤ 9999) ∧
    ∀ n l m, Event.tm1637_set_number_lead_dot n l m ∈ (loop_pass P s).2 →
      0 ≤ n ∧ n ≤ 2359 ∧ n ≤ 9999 := by
  have hr : 0 ≤ time_number s.timeinfo ∧ time_number s.timeinfo ≤ 2359 ∧
      time_number s.timeinfo ≤ 9999 := by
    rw [time_number_eq (defined_of_valid hvalid)]
    obtain ⟨h1, h2, h3, h4⟩ := hvalid
    omega
  refine ⟨hr, ?_⟩
  intro n l m hmem
  rw [loop_pass_trace] at hmem
  simp only [List.mem_cons, List.mem_singleton, List.not_mem_nil, or_false,
    Event.tm1637_set_number_lead_dot.injEq, false_or, reduceCtorEq] at hmem
  rcases hmem with ⟨h, -, -⟩ | ⟨h, -, -⟩ <;> rw [h] <;> exact hr

theorem time_number_in_range_witness :
    clock_fields_valid demoState.timeinfo ∧
    0 ≤ time_number demoState.timeinfo ∧ time_number demoState.timeinfo ≤ 2359 ∧
      time_number demoState.timeinfo ≤ 9999 :=
  ⟨by decide, (time_number_in_range demoPlatform demoState (by decide)).1⟩

/-! ## The blinking indicator -/

/-- C3. Over any number `n` of passes of the rendering loop, started in any
state: the trace of `n` passes is a prefix of that of any longer run; it has
`2 * n` display writes, the `k`-th of which (from 0) carries the mask `0x00`
when `k` is even and `0xFF` when `k` is odd, so two consecutive writes never
carry the same mask, also from one pass to the next; every write is followed
at once by a delay of `500 / portTICK_PERIOD_MS` ticks and that delay is not
followed by a second one; the run has no other delays; and the delay lasts
500 ms whenever the tick period divides 500. -/
theorem blink_masks (P : Platform) (s : TaskState) (n : Nat) :
    (∀ m, run_passes P n s <+: run_passes P (n + m) s) ∧
    (write_masks (run_passes P n s)).length = 2 * n ∧
    (∀ k, k < 2 * n →
      (write_masks (run_passes P n s))[k]? = some (if k % 2 = 0 then 0x00 else 0xFF)) ∧
    (∀ k a b, (write_masks (run_passes P n s))[k]? = some a →
      (write_masks (run_passes P n s))[k + 1]? = some b → a ≠ b) ∧
    (∀ i num lead mask,
      (run_passes P n s)[i]? = some (Event.tm1637_set_number_lead_dot num lead mask) →
      (run_passes P n s)[i + 1]? = some (Event.vTaskDelay (500 / P.portTICK_PERIOD_MS)) ∧
      ∀ t, (run_passes P n s)[i + 2]? ≠ some (Event.vTaskDelay t)) ∧
    delays (run_passes P n s) = List.replicate (2 * n) (500 / P.portTICK_PERIOD_MS) ∧
    (P.portTICK_PERIOD_MS ∣ 500 →
      ∀ t ∈ delays (run_passes P n s), t * P.portTICK_PERIOD_MS = 500) := by
  refine ⟨fun m => run_passes_prefix P n m s, write_masks_length P n s,
    fun k hk => write_masks_get P n s k hk, ?_,
    fun i num lead mask h => write_then_delay P n s i num lead mask h,
    delays_run P n s, ?_⟩
  · intro k a b ha hb
    have hlen := write_masks_length P n s
    have hk : k + 1 < 2 * n := by
      by_contra hcon
      rw [List.getElem?_eq_none (by omega)] at hb
      exact Option.noConfusion hb
    rw [write_masks_get P n s k (by omega)] at ha
    rw [write_masks_get P n s (k + 1) hk] at hb
    injection ha with ha
    injection hb with hb
    rw [← ha, ← hb]
    rcases Nat.mod_two_eq_zero_or_one k with h0 | h1
    · have : (k + 1) % 2 ≠ 0 := by omega
      simp [h0, this]
    · have h2 : (k + 1) % 2 = 0 := by omega
      have h3 : k % 2 ≠ 0 := by omega
      simp [h2, h3]
  · intro hdvd t ht
    rw [delays_run, List.mem_replicate] at ht
    rw [ht.2]
    exact Nat.div_mul_cancel hdvd

theorem blink_masks_witness :
    demoPlatform.portTICK_PERIOD_MS ∣ 500 ∧
    (∀ t ∈ delays (run_passes demoPlatform 3 demoState),
      t * demoPlatform.portTICK_PERIOD_MS = 500) ∧
    (write_masks (run_passes demoPlatform 3 demoState))[4]? = some 0x00 ∧
    (write_masks (run_passes demoPlatform 3 demoState))[5]? = some 0xFF :=
  ⟨by decide,
   (blink_masks demoPlatform demoState 3).2.2.2.2.2.2 (by decide),
   (blink_masks demoPlatform demoState 3).2.2.1 4 (by decide),
   (blink_masks demoPlatform demoState 3).2.2.1 5 (by decide)⟩

/-! ## Waiting for the time -/

/-- C6. The wait loop of `obtain_time` terminates for every sequence of
results of `esp_netif_sntp_sync_wait`: with fuel 15 or more it returns a
trace, which is waits each followed by its message and one last wait. If the
first result other than `ESP_ERR_TIMEOUT` is the one of index `j` (from 0,
position `j + 1`), the wait is called exactly `min 15 (j + 1)` times; if
there is none, 15 times; never more than 15. The messages are one less than
the waits, at most 14, and their counters run 1, 2, ... -/
theorem sntp_wait_loop_terminates (P : Platform) (fuel : Nat) (hfuel : 15 ≤ fuel) :
    ∃ r evs, sntp_wait_loop P fuel 0 0 = some (r, evs) ∧
      evs = wait_trace (2000 / P.portTICK_PERIOD_MS) (sync_waits evs - 1) 0 ∧
      sync_waits evs ≤ 15 ∧
      waiting_logs evs =
        (List.range (sync_waits evs - 1)).map (fun (i : Nat) => ((i : Int) + 1, (15 : Int))) ∧
      (∀ j, (∀ i < j, P.esp_netif_sntp_sync_wait i = ESP_ERR_TIMEOUT) →
        P.esp_netif_sntp_sync_wait j ≠ ESP_ERR_TIMEOUT →
        sync_waits evs = min 15 (j + 1)) ∧
      ((∀ i, P.esp_netif_sntp_sync_wait i = ESP_ERR_TIMEOUT) → sync_waits evs = 15) := by
  obtain ⟨m, r, h1, h2, h3, h4⟩ := sntp_wait_loop_spec P fuel 0 (by omega) (by omega)
  simp only [Nat.cast_zero, zero_add] at h1 h2 h3 h4
  refine ⟨r, _, h4, ?_, ?_, ?_, ?_, ?_⟩
  · rw [sync_waits_wait_trace, Nat.add_sub_cancel]
  · rw [sync_waits_wait_trace]; omega
  · rw [sync_waits_wait_trace, Nat.add_sub_cancel, waiting_logs_wait_trace]
    simp
  · intro j hj1 hj2
    rw [sync_waits_wait_trace]
    have hmj : m ≤ j := by
      by_contra hcon
      exact hj2 (h2 j (Nat.zero_le _) (by omega))
    by_cases hm : m < 14
    · have hjm : j ≤ m := by
        by_contra hcon
        exact h3 hm (hj1 m (by omega))
      omega
    · omega
  · intro hall
    rw [sync_waits_wait_trace]
    by_cases hm : m < 14
    · exact absurd (hall m) (h3 hm)
    · omega

theorem sntp_wait_loop_terminates_witness :
    15 ≤ 15 ∧
    ∃ r evs, sntp_wait_loop slowPlatform 15 0 0 = some (r, evs) ∧ sync_waits evs = 3 ∧
      waiting_logs evs = [(1, 15), (2, 15)] := by
  obtain ⟨r, evs, h, -, -, hl, hj, -⟩ := sntp_wait_loop_terminates slowPlatform 15 (le_refl 15)
  have h3 : sync_waits evs = 3 := hj 2 (by decide) (by decide)
  refine ⟨le_refl 15, r, evs, h, h3, ?_⟩
  rw [hl, h3]
  rfl

/-! ## The 500 ms error of the smooth method -/

/-- C7. For every current time with `tv_sec ≥ 0`, `0 ≤ tv_usec < 1000000`
and no 64 bit overflow, the `timeval` computed in the smooth-sync branch is
normalised and exactly 500 ms later: the seconds go up by one exactly when
`tv_usec ≥ 500000` and stay otherwise. In the build with smooth sync, when
the initial year is 2016 or later, that value, computed from
`gettimeofday`, is what the task passes to `settimeofday` before it calls
`obtain_time`. -/
theorem tv_error_half_second (tv_now : timeval) (hsec : 0 ≤ tv_now.tv_sec)
    (hus : 0 ≤ tv_now.tv_usec) (hus1 : tv_now.tv_usec < 1000000)
    (hno : tv_now.tv_sec * 1000000 + tv_now.tv_usec + 500000 < 2 ^ 63) :
    (0 ≤ (tv_error tv_now).tv_usec ∧ (tv_error tv_now).tv_usec < 1000000) ∧
    (tv_error tv_now).tv_sec * 1000000 + (tv_error tv_now).tv_usec =
      tv_now.tv_sec * 1000000 + tv_now.tv_usec + 500000 ∧
    ((tv_error tv_now).tv_sec = tv_now.tv_sec + 1 ↔ 500000 ≤ tv_now.tv_usec) ∧
    ((tv_error tv_now).tv_sec = tv_now.tv_sec ↔ tv_now.tv_usec < 500000) ∧
    ∀ (C : Config) (P : Platform) (fuel : Nat) (w : World),
      C.CONFIG_SNTP_TIME_SYNC_METHOD_SMOOTH = true →
      ¬ (P.localtime_r w.TZ (time w)).tm_year < 2016 - 1900 →
      15 ≤ fuel → gettimeofday w = tv_now →
      ∃ rest st, lcd_tm1637_task_setup C P fuel w =
        some ([Event.tm1637_init, Event.printf_year (P.localtime_r w.TZ (time w)).tm_year,
               Event.log_add_error, Event.settimeofday (tv_error tv_now),
               Event.log_time_was_set, Event.obtain_time] ++ rest, st) := by
  have he := tv_error_eq tv_now hsec hus hus1 hno
  have hs : (tv_error tv_now).tv_sec =
      (tv_now.tv_sec * 1000000 + tv_now.tv_usec + 500000) / 1000000 := by rw [he]
  have hu : (tv_error tv_now).tv_usec =
      (tv_now.tv_sec * 1000000 + tv_now.tv_usec + 500000) % 1000000 := by rw [he]
  refine ⟨by constructor <;> omega, by omega, by constructor <;> intro h <;> omega,
    by constructor <;> intro h <;> omega, ?_⟩
  intro C P fuel w hsm hyear hfuel hget
  obtain ⟨t, ow, hot, -, -, rest, hrest⟩ :=
    obtain_time_returns C P fuel hfuel (settimeofday (tv_error tv_now) w)
  unfold lcd_tm1637_task_setup lcd_tm1637_task_sync
  simp only [hyear, if_false, hsm, if_true, hget, hot, hrest]
  cases ow with
  | none => exact ⟨_, _, rfl⟩
  | some w1 => exact ⟨_, _, rfl⟩

theorem tv_error_half_second_witness :
    (0 ≤ demoTimeval.tv_sec ∧ 0 ≤ demoTimeval.tv_usec ∧ demoTimeval.tv_usec < 1000000) ∧
    (tv_error demoTimeval).tv_sec = demoTimeval.tv_sec + 1 :=
  ⟨by decide,
   (tv_error_half_second demoTimeval (by decide) (by decide) (by decide)
      (by decide)).2.2.1.mpr (by decide)⟩

/-! ## When the time is fetched -/

/-- C8. In the build without smooth sync, with fuel 15 or more, the part of
`lcd_tm1637_task` before its loop ends (at the loop or in an abort inside
`obtain_time`), and its trace enters `obtain_time` once and logs "Time is not
set yet" once when the initial broken-down time has `tm_year < 116`, and
neither of them otherwise: then the trace is the six calls written out, none
of which touches the network, and the loop is entered. The loop itself only
calls `settimeofday`, the display and the delay, so over any number of passes
the whole task enters `obtain_time` once if `tm_year < 116` and never
otherwise. -/
theorem obtain_time_iff_year_before_2016 (C : Config) (P : Platform) (fuel : Nat) (w : World)
    (hsmooth : C.CONFIG_SNTP_TIME_SYNC_METHOD_SMOOTH = false) (hfuel : 15 ≤ fuel) :
    (∃ t st, lcd_tm1637_task_setup C P fuel w = some (t, st) ∧
      obtain_time_calls t = (if (P.localtime_r w.TZ (time w)).tm_year < 116 then 1 else 0) ∧
      t.count Event.log_time_not_set =
        (if (P.localtime_r w.TZ (time w)).tm_year < 116 then 1 else 0) ∧
      (¬ (P.localtime_r w.TZ (time w)).tm_year < 116 →
        t = [Event.tm1637_init, Event.printf_year (P.localtime_r w.TZ (time w)).tm_year,
             Event.setenv "TZ" "IST-5:30", Event.tzset,
             Event.log_current_date (P.localtime_r (some "IST-5:30") (time w)),
             Event.printf_now_address] ∧
        st = some { now := time w,
                    timeinfo := P.localtime_r (some "IST-5:30") (time w),
                    world := { w with TZ := some "IST-5:30" } })) ∧
    (∀ n s, ∀ e ∈ run_passes P n s,
      (∃ tv, e = Event.settimeofday tv) ∨
      (∃ num lead mask, e = Event.tm1637_set_number_lead_dot num lead mask) ∨
      (∃ ticks, e = Event.vTaskDelay ticks)) ∧
    (∀ n, ∃ t, lcd_tm1637_task C P fuel n w = some t ∧
      obtain_time_calls t = (if (P.localtime_r w.TZ (time w)).tm_year < 116 then 1 else 0)) := by
  have hsetup : ∃ t st, lcd_tm1637_task_setup C P fuel w = some (t, st) ∧
      obtain_time_calls t = (if (P.localtime_r w.TZ (time w)).tm_year < 116 then 1 else 0) ∧
      t.count Event.log_time_not_set =
        (if (P.localtime_r w.TZ (time w)).tm_year < 116 then 1 else 0) ∧
      (¬ (P.localtime_r w.TZ (time w)).tm_year < 116 →
        t = [Event.tm1637_init, Event.printf_year (P.localtime_r w.TZ (time w)).tm_year,
             Event.setenv "TZ" "IST-5:30", Event.tzset,
             Event.log_current_date (P.localtime_r (some "IST-5:30") (time w)),
             Event.printf_now_address] ∧
        st = some { now := time w,
                    timeinfo := P.localtime_r (some "IST-5:30") (time w),
                    world := { w with TZ := some "IST-5:30" } }) := by
    unfold lcd_tm1637_task_setup lcd_tm1637_task_sync obtain_time_calls
    by_cases hy : (P.localtime_r w.TZ (time w)).tm_year < 116
    · have hy2 : (P.localtime_r w.TZ (time w)).tm_year < 2016 - 1900 := by
        norm_num; exact hy
      obtain ⟨t, ow, hot, h1, h2, -⟩ := obtain_time_returns C P fuel hfuel w
      simp only [hy2, hy, if_true, hot]
      cases ow with
      | none =>
        refine ⟨_, _, rfl, ?_, ?_, fun h => absurd trivial h⟩
        · simp [List.count_cons, h1]
        · simp [List.count_cons, h2]
      | some w1 =>
        refine ⟨_, _, rfl, ?_, ?_, fun h => absurd trivial h⟩
        · simp [List.count_cons, List.count_append, h1]
        · simp [List.count_cons, List.count_append, h2]
    · have hy2 : ¬ (P.localtime_r w.TZ (time w)).tm_year < 2016 - 1900 := by
        norm_num; exact le_of_not_lt hy
      simp only [hy2, hy, if_false, hsmooth]
      exact ⟨_, _, rfl, by simp, by simp, fun _ => ⟨rfl, rfl⟩⟩
  refine ⟨hsetup, fun n s => run_passes_events P n s, ?_⟩
  intro n
  obtain ⟨t, st, heq, hc, -, -⟩ := hsetup
  unfold lcd_tm1637_task
  rw [heq]
  cases st with
  | none => exact ⟨t, rfl, hc⟩
  | some s =>
    refine ⟨_, rfl, ?_⟩
    have := run_passes_no_obtain_time P n s
    unfold obtain_time_calls at this hc ⊢
    rw [List.count_append, hc, this, Nat.add_zero]

theorem obtain_time_iff_year_before_2016_witness :
    (demoConfig.CONFIG_SNTP_TIME_SYNC_METHOD_SMOOTH = false ∧ 15 ≤ 15) ∧
    (∃ t, lcd_tm1637_task demoConfig demoPlatform 15 3 bootWorld = some t ∧
      obtain_time_calls t = 1) ∧
    (∃ t, lcd_tm1637_task demoConfig demoPlatform 15 3 syncedWorld = some t ∧
      obtain_time_calls t = 0) :=
  ⟨by decide,
   (obtain_time_iff_year_before_2016 demoConfig demoPlatform 15 bootWorld rfl
      (le_refl 15)).2.2 3,
   (obtain_time_iff_year_before_2016 demoConfig demoPlatform 15 syncedWorld rfl
      (le_refl 15)).2.2 3⟩

/-! ## What time is shown -/

/-- C4, as stated, fails. On `demoPlatform` the loop is entered from
`bootWorld` in `demoState`; its first pass sets the system time to
1699991000 s, which is 01:13 in the zone of the display, and writes 343
(03:43) to the display twice. -/
theorem renders_system_time_fails :
    (∃ t, lcd_tm1637_task_setup demoConfig demoPlatform 15 bootWorld = some (t, some demoState)) ∧
    (loop_pass demoPlatform demoState).2 =
      [Event.settimeofday { tv_sec := 1699991000, tv_usec := 0 },
       Event.tm1637_set_number_lead_dot 343 true 0x00, Event.vTaskDelay 50,
       Event.tm1637_set_number_lead_dot 343 true 0xFF, Event.vTaskDelay 50] ∧
    time (world_in_pass demoState) = 1699991000 ∧
    (demoPlatform.localtime_r (world_in_pass demoState).TZ
      (time (world_in_pass demoState))).tm_hour = 1 ∧
    (demoPlatform.localtime_r (world_in_pass demoState).TZ
      (time (world_in_pass demoState))).tm_min = 13 ∧
    ¬ renders_system_time demoPlatform demoState := by
  refine ⟨⟨_, rfl⟩, by decide, by decide, by decide, by decide, ?_⟩
  intro h
  have h1 := h (343, true, 0x00) (by decide)
  revert h1
  decide

/-- C4, amended. From the state `s0` in which the setup enters the loop,
with `0 ≤ now` and no 64 bit overflow up to pass `k`, and hour and minute of
the broken-down time in range: at the start of pass `k` (from 0) the counter
`now` is its value at loop entry plus `k` and `timeinfo` is `localtime_r` of
that counter in the zone `IST-5:30`; the pass sets the system time to
`now - 9000` seconds and both display writes carry `100 * tm_hour + tm_min`
of `localtime_r` of the counter, that is of the system time just set plus
9000 seconds. -/
theorem renders_task_counter (C : Config) (P : Platform) (fuel : Nat) (w : World)
    (t : List Event) (s0 : TaskState) (k : Nat)
    (hsetup : lcd_tm1637_task_setup C P fuel w = some (t, some s0))
    (hlo : 0 ≤ s0.now) (hhi : s0.now + k < 2 ^ 63)
    (hvalid : clock_fields_valid (P.localtime_r (some "IST-5:30") (s0.now + k))) :
    (state_after P k s0).now = s0.now + k ∧
    (state_after P k s0).timeinfo = P.localtime_r (some "IST-5:30") (s0.now + k) ∧
    (loop_pass P (state_after P k s0)).2 =
      [Event.settimeofday { tv_sec := s0.now + k - 9000, tv_usec := 0 },
       Event.tm1637_set_number_lead_dot
         (100 * (P.localtime_r (some "IST-5:30") (s0.now + k)).tm_hour
            + (P.localtime_r (some "IST-5:30") (s0.now + k)).tm_min) true 0x00,
       Event.vTaskDelay (500 / P.portTICK_PERIOD_MS),
       Event.tm1637_set_number_lead_dot
         (100 * (P.localtime_r (some "IST-5:30") (s0.now + k)).tm_hour
            + (P.localtime_r (some "IST-5:30") (s0.now + k)).tm_min) true 0xFF,
       Event.vTaskDelay (500 / P.portTICK_PERIOD_MS)] ∧
    time (world_in_pass (state_after P k s0)) = s0.now + k - 9000 ∧
    (world_in_pass (state_after P k s0)).TZ = some "IST-5:30" ∧
    ∀ x ∈ display_writes (loop_pass P (state_after P k s0)).2,
      x.1 = 100 * (P.localtime_r (some "IST-5:30")
                    (time (world_in_pass (state_after P k s0)) + 9000)).tm_hour
              + (P.localtime_r (some "IST-5:30")
                    (time (world_in_pass (state_after P k s0)) + 9000)).tm_min := by
  obtain ⟨htz, hti⟩ := setup_invariant C P fuel w t s0 hsetup
  obtain ⟨h1, h2, h3⟩ := state_after_invariant P k s0 _ htz hti hlo hhi
  have hsub : int64 (int64 ((state_after P k s0).now - 3600) - 5400) = s0.now + k - 9000 := by
    rw [h1]
    norm_num at hhi
    have e1 : int64 (s0.now + k - 3600) = s0.now + k - 3600 :=
      int64_eq_self (by norm_num; omega) (by norm_num; omega)
    have e2 : int64 (s0.now + k - 3600 - 5400) = s0.now + k - 3600 - 5400 :=
      int64_eq_self (by norm_num; omega) (by norm_num; omega)
    rw [e1, e2]
    omega
  have htime : time (world_in_pass (state_after P k s0)) = s0.now + k - 9000 := by
    unfold time world_in_pass settimeofday
    rw [hsub]
    simp only [add_zero]
    omega
  have htrace := loop_pass_trace P (state_after P k s0)
  rw [hsub, h3, time_number_eq (defined_of_valid hvalid)] at htrace
  refine ⟨h1, h3, htrace, htime, ?_, ?_⟩
  · unfold world_in_pass settimeofday
    exact h2
  · intro x hx
    rw [htrace] at hx
    rw [htime, show s0.now + (k : Int) - 9000 + 9000 = s0.now + k by ring]
    simp only [display_writes, List.mem_cons, List.mem_singleton, List.not_mem_nil,
      or_false] at hx
    rcases hx with h | h <;> rw [h]

theorem renders_task_counter_witness :
    (∃ t, lcd_tm1637_task_setup demoConfig demoPlatform 15 bootWorld =
      some (t, some demoState)) ∧
    (0 ≤ demoState.now ∧ demoState.now + (60 : Nat) < 2 ^ 63 ∧
      clock_fields_valid (demoPlatform.localtime_r (some "IST-5:30")
        (demoState.now + (60 : Nat)))) ∧
    (loop_pass demoPlatform (state_after demoPlatform 60 demoState)).2 =
      [Event.settimeofday { tv_sec := 1699991060, tv_usec := 0 },
       Event.tm1637_set_number_lead_dot 344 true 0x00, Event.vTaskDelay 50,
       Event.tm1637_set_number_lead_dot 344 true 0xFF, Event.vTaskDelay 50] :=
  ⟨⟨_, rfl⟩, by decide,
   (renders_task_counter demoConfig demoPlatform 15 bootWorld _ demoState 60 rfl
      (by decide) (by decide) (by decide)).2.2.1⟩

end IoTClock
